import Mathlib

/-! Shallow embedding of the LiveAvatar AI-SDR website-to-context pipeline
(`src/app/api/generate-context/route.ts`, `src/src/components/LiveAvatarDemo.tsx`).

JavaScript strings are modelled as Lean `String`s (lists of characters);
the regex-based text passes are modelled as executable character-list
transformations with the same deterministic semantics as the source's
global regex replaces.
-/

namespace SDR

/-- ASCII lower-casing, as applied by JS `URL` hostname normalisation and
case-insensitive regex matching on the ASCII inputs this pipeline handles. -/
def asciiLower (c : Char) : Char :=
  if 'A' ≤ c ∧ c ≤ 'Z' then Char.ofNat (c.toNat + 32) else c

/-- ASCII upper-casing, as applied by JS `toUpperCase()` on ASCII letters. -/
def asciiUpper (c : Char) : Char :=
  if 'a' ≤ c ∧ c ≤ 'z' then Char.ofNat (c.toNat - 32) else c

/-- Case-insensitive character comparison (ASCII), for the `i` regex flag. -/
def ciEq (a b : Char) : Bool := asciiLower a = asciiLower b

/-- Match `pat` case-insensitively at the head of the input; on success
return the rest of the input. -/
def stripCI : List Char → List Char → Option (List Char)
  | [], l => some l
  | _ :: _, [] => none
  | p :: ps, c :: cs => if ciEq p c then stripCI ps cs else none

/-- Match the regex `<tag[^>]*>` (case-insensitive) at the head of the
input; on success return the input after the closing `>`. -/
def matchOpenTag (tag : List Char) (l : List Char) : Option (List Char) :=
  match stripCI ('<' :: tag) l with
  | none => none
  | some rest =>
    match rest.dropWhile (fun c => c ≠ '>') with
    | '>' :: r => some r
    | _ => none

/-- Search for the earliest case-insensitive occurrence of `</tag>` and
return the input after it (the non-greedy `[\s\S]*?<\/tag>` part). -/
def dropThroughClose (tag : List Char) : List Char → Option (List Char)
  | [] => none
  | c :: cs =>
    match stripCI ('<' :: '/' :: (tag ++ ['>'])) (c :: cs) with
    | some rest => some rest
    | none => dropThroughClose tag cs

/-- One global pass of `text.replace(/<tag[^>]*>[\s\S]*?<\/tag>/gi, "")`:
remove each block from its opening tag through the earliest closing tag.
Fuel decreases on every step; the initial fuel `l.length` always suffices
because each step consumes at least one input character. -/
def removeBlocksAux (tag : List Char) : Nat → List Char → List Char
  | 0, l => l
  | _ + 1, [] => []
  | fuel + 1, c :: cs =>
    match matchOpenTag tag (c :: cs) with
    | some afterOpen =>
      match dropThroughClose tag afterOpen with
      | some rest => removeBlocksAux tag fuel rest
      | none => c :: removeBlocksAux tag fuel cs
    | none => c :: removeBlocksAux tag fuel cs

def removeBlocks (tag : String) (l : List Char) : List Char :=
  removeBlocksAux tag.data l.length l

/-- One global pass of `text.replace(/<[^>]+>/g, " ")`: each maximal
`<`…`>` span with at least one non-`>` character inside becomes one space. -/
def stripTagsAux : Nat → List Char → List Char
  | 0, l => l
  | _ + 1, [] => []
  | fuel + 1, c :: cs =>
    if c = '<' then
      let run := cs.takeWhile (fun x => x ≠ '>')
      match cs.drop run.length with
      | '>' :: r =>
        if run.isEmpty then c :: stripTagsAux fuel cs
        else ' ' :: stripTagsAux fuel r
      | _ => c :: stripTagsAux fuel cs
    else c :: stripTagsAux fuel cs

def stripTags (l : List Char) : List Char :=
  stripTagsAux l.length l

/-- The character class of the JS regex `\s` restricted to the ASCII
whitespace this pipeline encounters. -/
def isJsWs (c : Char) : Bool :=
  c = ' ' ∨ c = '\t' ∨ c = '\n' ∨ c = '\r' ∨ c = '\x0b' ∨ c = '\x0c'

/-- Model of `text.replace(/\s+/g, " ")`: collapse every whitespace run to one space. -/
def collapseWs : List Char → List Char
  | [] => []
  | [c] => if isJsWs c then [' '] else [c]
  | a :: b :: rest =>
    if isJsWs a ∧ isJsWs b then collapseWs (b :: rest)
    else (if isJsWs a then ' ' else a) :: collapseWs (b :: rest)

/-- Model of JS `String.prototype.trim()`. -/
def trimWs (l : List Char) : List Char :=
  ((l.dropWhile isJsWs).reverse.dropWhile isJsWs).reverse

/-- One global pass of `text.replace(pat, rep)` with a literal (nonempty)
pattern: scan left to right, substitute each occurrence, and continue after
the substituted text (the replacement is not rescanned within the pass).
Fuel decreases every step; `l.length` suffices because each step consumes
at least one input character. -/
def replaceAllAux (pat rep : List Char) : Nat → List Char → List Char
  | 0, l => l
  | _ + 1, [] => []
  | fuel + 1, c :: cs =>
    if pat.isPrefixOf (c :: cs) then
      rep ++ replaceAllAux pat rep fuel ((c :: cs).drop pat.length)
    else c :: replaceAllAux pat rep fuel cs

def replaceAll (s pat rep : String) : String :=
  String.mk (replaceAllAux pat.data rep.data s.data.length s.data)

/-- The six literal entity passes shared by every variant of the extractor,
in source order (`&nbsp;` first, `&amp;` before `&lt;`/`&gt;`/`&quot;`/`&#39;`). -/
def decodeEntities (s : String) : String :=
  replaceAll (replaceAll (replaceAll (replaceAll (replaceAll (replaceAll
    s "&nbsp;" " ") "&amp;" "&") "&lt;" "<") "&gt;" ">") "&quot;" "\"") "&#39;" "'"

/-- Model of `extractTextFromHtml` (basic variant, route.ts lines 4-24): remove
`<script>`/`<style>` blocks, strip remaining tags to spaces, decode the six
entities, collapse whitespace, trim. -/
def extractTextFromHtml (html : String) : String :=
  let t1 := removeBlocks "script" html.data
  let t2 := removeBlocks "style" t1
  let t3 := stripTags t2
  let t4 := decodeEntities (String.mk t3)
  String.mk (trimWs (collapseWs t4.data))

/-- Model of `extractTextFromHtml` (multi-page variant, route.ts lines 225-248):
additionally removes `<nav>`, `<footer>`, `<header>` blocks. -/
def extractTextFromHtmlV2 (html : String) : String :=
  let t1 := removeBlocks "script" html.data
  let t2 := removeBlocks "style" t1
  let t3 := removeBlocks "nav" t2
  let t4 := removeBlocks "footer" t3
  let t5 := removeBlocks "header" t4
  let t6 := stripTags t5
  let t7 := decodeEntities (String.mk t6)
  String.mk (trimWs (collapseWs t7.data))

/-- Split the input at the first occurrence of `pat` (nonempty), returning
the part before and the part after. -/
def splitOnSub (pat : List Char) : List Char → Option (List Char × List Char)
  | [] => none
  | c :: cs =>
    if pat.isPrefixOf (c :: cs) then some ([], (c :: cs).drop pat.length)
    else
      match splitOnSub pat cs with
      | some (pre, post) => some (c :: pre, post)
      | none => none

/-- Result of JS `new URL(…)` restricted to the fields this pipeline reads. -/
structure URLParts where
  hostname : String
  origin : String
  deriving Repr, DecidableEq

/-- Modelled JS `new URL`: simplified to the `scheme://host[:port][/path…]`
shapes this pipeline produces (the UI always submits a scheme-prefixed URL).
The hostname is ASCII-lowercased as the JS `URL` parser does; `none` models
the thrown `TypeError` on inputs with no scheme separator or an empty host. -/
def jsURL? (url : String) : Option URLParts :=
  match splitOnSub "://".data url.data with
  | none => none
  | some (schemeChars, rest) =>
    if schemeChars.isEmpty ∨
        ¬ schemeChars.all (fun c => 'a' ≤ asciiLower c ∧ asciiLower c ≤ 'z') then none
    else
      let authority := rest.takeWhile (fun c => c ≠ '/' ∧ c ≠ '?' ∧ c ≠ '#')
      let hostport := (authority.reverse.takeWhile (fun c => c ≠ '@')).reverse
      let host := hostport.takeWhile (fun c => c ≠ ':')
      if host.isEmpty then none
      else
        some { hostname := String.mk (host.map asciiLower)
               origin := String.mk (schemeChars.map asciiLower) ++ "://" ++
                 String.mk (hostport.map asciiLower) }

/-- The TLD allow-list of the regex `\.(com|org|net|io|co|ai|app)$`,
in the source's alternation order. -/
def tldTokens : List String := ["com", "org", "net", "io", "co", "ai", "app"]

/-- Model of `name.replace(/\.(com|org|net|io|co|ai|app)$/, "")`: the `$` anchor means
any match is a suffix, and the listed suffixes are mutually exclusive, so
stripping the unique matching `.tld` suffix has the same semantics. -/
def stripTld (h : List Char) : List Char :=
  match tldTokens.find? (fun t => ('.' :: t.data).isSuffixOf h) with
  | some t => h.take (h.length - (t.length + 1))
  | none => h

/-- Model of `hostname.replace(/^www\./, "")`. -/
def stripWww (h : List Char) : List Char :=
  if "www.".data.isPrefixOf h then h.drop 4 else h

/-- Model of JS `split(/[.-]/)` semantics: `""` splits to `[""]`, separators at the
ends produce empty segments. -/
def splitDotDash (l : List Char) : List (List Char) :=
  l.foldr
    (fun c acc =>
      if c = '.' ∨ c = '-' then [] :: acc
      else
        match acc with
        | w :: rest => (c :: w) :: rest
        | [] => [[c]])
    [[]]

/-- Model of `word.charAt(0).toUpperCase() + word.slice(1)` (empty word stays empty). -/
def jsCapitalize : List Char → List Char
  | [] => []
  | c :: cs => asciiUpper c :: cs

/-- Model of `extractBusinessName` (route.ts lines 27-46): derive a display name from
the URL hostname; the `content` argument is accepted but never read. -/
def extractBusinessName (url content : String) : String :=
  match jsURL? url with
  | none => "the company"
  | some u =>
    let name := stripTld (stripWww u.hostname.data)
    String.mk (List.intercalate [' '] ((splitDotDash name).map jsCapitalize))

/-- Case-insensitive literal prefix test on strings. -/
def startsWithCI (s pat : String) : Bool := (stripCI pat.data s.data).isSome

/-- The test `normalized.match(/^https?:\/\//i)`: an `http://` or `https://`
prefix, case-insensitively. -/
def hasHttpScheme (s : String) : Bool :=
  startsWithCI s "http://" || startsWithCI s "https://"

/-- Model of JS `url.trim()`. -/
def jsTrim (s : String) : String := String.mk (trimWs s.data)

/-- Model of `normalizeUrl` (LiveAvatarDemo.tsx lines 159-165): trim, then prefix
`https://` unless an `http(s)://` scheme is already present. -/
def normalizeUrl (url : String) : String :=
  let normalized := jsTrim url
  if hasHttpScheme normalized then normalized else "https://" ++ normalized

/-- Model of JS `s.slice(0, n)` for `n ≥ 0`: the first `n` characters. -/
def jsSlice (s : String) (n : Nat) : String := String.mk (s.data.take n)

/-- The basic sales-prompt template (route.ts lines 53-62) up to the point
where the truncated website content is interpolated. -/
def salesPromptHeadV1 (userName businessName : String) : String :=
  "You are a friendly and knowledgeable AI sales representative for " ++ businessName ++
  ". Your name is " ++ userName ++ "'s AI Assistant.\n\nYour role is to:\n- Welcome visitors warmly and learn about their needs\n- Answer questions about " ++
  businessName ++ "'s products and services\n- Help potential customers understand how " ++
  businessName ++ " can solve their problems\n- Guide interested visitors toward taking the next step (booking a demo, contacting sales, etc.)\n\nHere is information about the business from their website:\n"

/-- The basic sales-prompt template (route.ts lines 62-71) after the
truncated website content. -/
def salesPromptTailV1 : String :=
  "\n\nCommunication style:\n- Be conversational and approachable, not salesy or pushy\n- Listen actively and ask clarifying questions\n- Provide helpful, accurate information based on what you know\n- If you don't know something specific, offer to connect them with a human team member\n- Keep responses concise and natural for voice conversation\n\nRemember: You're having a real-time voice conversation, so keep your responses brief and conversational."

/-- Model of `generateSalesPrompt` (basic variant, route.ts lines 49-72): the website
content is truncated to its first 2000 characters and interpolated into the
fixed template. -/
def generateSalesPrompt (userName businessName websiteContent : String) : String :=
  let truncatedContent := jsSlice websiteContent 2000
  salesPromptHeadV1 userName businessName ++ truncatedContent ++ salesPromptTailV1

/-- The multi-page sales-prompt template (route.ts lines 369-387) up to the
interpolated truncated content; the title and description lines collapse to
empty strings when those fields are empty (JS falsy test). -/
def salesPromptHeadV2 (userName businessName title description : String) : String :=
  "You are a friendly and knowledgeable AI sales representative for " ++ businessName ++
  ". Your name is " ++ userName ++ "'s AI Assistant.\n\nCompany Overview:\n- Company: " ++ businessName ++ "\n" ++
  (if title = "" then "" else "- Title: " ++ title) ++ "\n" ++
  (if description = "" then "" else "- Description: " ++ description) ++
  "\n\nYour role is to:\n- Welcome visitors warmly and learn about their needs\n- Answer questions about " ++
  businessName ++ "'s products, services, and offerings\n- Provide accurate, up-to-date information about " ++
  businessName ++ "\n- Help potential customers understand how " ++ businessName ++
  " can solve their problems\n- Guide interested visitors toward taking the next step (booking a demo, contacting sales, signing up, etc.)\n\nIMPORTANT: Base your answers ONLY on the information provided below. If asked about something not covered in the content below, say you'd be happy to connect them with someone who can help with that specific question.\n\nHere is detailed information about " ++
  businessName ++ " from their website:\n\n"

/-- The multi-page sales-prompt template (route.ts lines 387-397) after the
truncated content. -/
def salesPromptTailV2 (businessName : String) : String :=
  "\n\nCommunication style:\n- Be conversational and approachable, not salesy or pushy\n- Listen actively and ask clarifying questions\n- Provide helpful, accurate information based ONLY on what's provided above\n- If you don't know something specific, offer to connect them with a human team member\n- Keep responses concise and natural for voice conversation (2-3 sentences max)\n- Be enthusiastic about " ++
  businessName ++ "'s offerings\n\nRemember: You're having a real-time voice conversation, so keep your responses brief and conversational."

/-- Model of `generateSalesPrompt` (multi-page variant, route.ts lines 359-398): the
website content is truncated to its first 6000 characters. -/
def generateSalesPromptV2 (userName businessName websiteContent title description : String) :
    String :=
  let truncatedContent := jsSlice websiteContent 6000
  salesPromptHeadV2 userName businessName title description ++ truncatedContent ++
    salesPromptTailV2 businessName

/-- A remote context as this system reads it: `{ name, id }`. -/
structure Context where
  name : String
  id : String
  deriving Repr, DecidableEq

/-- Model of JS `ctx.name.startsWith(pat)`. -/
def strStartsWith (s pat : String) : Bool := pat.data.isPrefixOf s.data

/-- Model of `findExistingContext` (route.ts lines 75-106) given the outcome of the
`GET /v1/contexts?page=1&page_size=100` call: `none` for a failed listing
(non-ok response or thrown error, both returning `null` in the source),
`some page` for the first page of results. Returns the id of the first
listed context whose name starts with `"<businessName> Sales Rep"`. -/
def findExistingContext (listRes : Option (List Context)) (businessName : String) :
    Option String :=
  match listRes with
  | none => none
  | some contexts =>
    match contexts.find? (fun ctx => strStartsWith ctx.name (businessName ++ " Sales Rep")) with
    | some matching => some matching.id
    | none => none

/-- The context name built at creation time:
`` `${businessName} Sales Rep - ${userName} (${timestamp})` ``. -/
def contextName (businessName userName timestamp : String) : String :=
  businessName ++ " Sales Rep - " ++ userName ++ " (" ++ timestamp ++ ")"

/-- The body of the 400 response when the crawl produced no content:
`` `Could not access the website "${businessUrl}". …` ``. -/
def couldNotAccessMsg (businessUrl : String) : String :=
  "Could not access the website \"" ++ businessUrl ++
    "\". Please double-check the URL and make sure the website is accessible."

/-- The observable outcome of one `POST /api/generate-context` request,
together with bookkeeping the claims inspect: how many create calls were
issued and the context those calls created. -/
structure PostOutcome where
  status : Nat
  contextId : Option String := none
  businessName : Option String := none
  reused : Bool := false
  error : Option String := none
  createCalls : Nat := 0
  createdContext : Option Context := none
  deriving Repr, DecidableEq

/-- The request body `{ userName, businessUrl }` (avatar and voice ids are
passed through unchanged and never affect the logic the claims describe). -/
structure Req where
  userName : String
  businessUrl : String
  deriving Repr, DecidableEq

/-- Model of the `POST` handler, basic variant (route.ts lines 108-221). Network effects
are passed in as oracles: `fetch` is the homepage fetch (`none` models a
thrown error or a non-ok status, both of which set `websiteFetchFailed`),
`listRes` the context-listing outcome, and `createRes` the
`POST /v1/contexts` outcome (`.error (status, msg)` models a non-ok
response with the message already extracted from its body). -/
def postV1 (fetch : String → Option String) (listRes : Option (List Context))
    (createRes : Except (Nat × String) String) (timestamp : String) (req : Req) :
    PostOutcome :=
  if req.userName = "" ∨ req.businessUrl = "" then
    { status := 400, error := some "Missing userName or businessUrl" }
  else
    match fetch req.businessUrl with
    | none => { status := 400, error := some (couldNotAccessMsg req.businessUrl) }
    | some html =>
      let websiteContent := extractTextFromHtml html
      let businessName := extractBusinessName req.businessUrl websiteContent
      match findExistingContext listRes businessName with
      | some existingContextId =>
        { status := 200, contextId := some existingContextId,
          businessName := some businessName, reused := true }
      | none =>
        match createRes with
        | .error (st, msg) => { status := st, error := some msg, createCalls := 1 }
        | .ok contextId =>
          { status := 200, contextId := some contextId,
            businessName := some businessName, createCalls := 1,
            createdContext := some ⟨contextName businessName req.userName timestamp, contextId⟩ }

/-- The `CrawlResult` record: the `{ content, title, description }` record returned by
`fetchWebsiteContent`. -/
structure CrawlResult where
  content : String
  title : String
  description : String
  deriving Repr, DecidableEq

/-- The fixed candidate secondary paths (route.ts lines 293-301). -/
def additionalPaths : List String :=
  ["/about", "/about-us", "/products", "/services", "/features", "/pricing", "/solutions"]

/-- Replace the first occurrence of `pat` (nonempty) by `rep`: the JS
semantics of `replace` with a string pattern. -/
def replaceFirst (pat rep : List Char) : List Char → List Char
  | [] => []
  | c :: cs =>
    if pat.isPrefixOf (c :: cs) then rep ++ (c :: cs).drop pat.length
    else c :: replaceFirst pat rep cs

/-- Model of `path.replace("/", "").replace("-", " ")` (route.ts line 324). -/
def pageLabel (path : String) : String :=
  String.mk (replaceFirst "-".data " ".data (replaceFirst "/".data [] path.data))

/-- Model of `fetchWebsiteContent` (multi-page variant, route.ts lines 291-334),
instrumented with a trace of every fetch attempt `(url, succeeded?)`.
`fetch` is the page-fetch oracle (`fetchPage` returns `null` on error,
timeout, or non-ok status); `meta` abstracts `extractTitle` and
`extractMetaDescription` (route.ts lines 251-264), whose output no claim
inspects. `none` models the `TypeError` thrown by `new URL(baseUrl)`
before any fetch. -/
def fetchWebsiteContent (fetch : String → Option String)
    (meta : String → String × String) (baseUrl : String) :
    Option (CrawlResult × List (String × Bool)) :=
  match jsURL? baseUrl with
  | none => none
  | some u =>
    match fetch baseUrl with
    | none => some ({ content := "", title := "", description := "" }, [(baseUrl, false)])
    | some homepageHtml =>
      let title := (meta homepageHtml).1
      let description := (meta homepageHtml).2
      let homepagePart := "Homepage:\n" ++ extractTextFromHtmlV2 homepageHtml ++ "\n\n"
      let fetched := (additionalPaths.take 3).map (fun path =>
        let pageUrl := u.origin ++ path
        match fetch pageUrl with
        | none => ((pageUrl, false), "")
        | some html =>
          let pageContent := extractTextFromHtmlV2 html
          if pageContent.length > 100 then
            ((pageUrl, true), pageLabel path ++ " page:\n" ++ pageContent ++ "\n\n")
          else ((pageUrl, true), ""))
      let allContent :=
        homepagePart ++ String.join ((fetched.map (fun x => x.2)).filter (fun c => c ≠ ""))
      some ({ content := allContent, title := title, description := description },
        (baseUrl, true) :: fetched.map (fun x => x.1))

/-- Model of the `POST` handler, multi-page variant (route.ts lines 434-528). The `none`
crawl outcome (invalid URL) is caught by the handler's outer `try` and
becomes the 500 response with the thrown message. -/
def postV2 (fetch : String → Option String) (meta : String → String × String)
    (listRes : Option (List Context)) (createRes : Except (Nat × String) String)
    (timestamp : String) (req : Req) : PostOutcome :=
  if req.userName = "" ∨ req.businessUrl = "" then
    { status := 400, error := some "Missing userName or businessUrl" }
  else
    match fetchWebsiteContent fetch meta req.businessUrl with
    | none => { status := 500, error := some "Invalid URL" }
    | some (crawl, _) =>
      if crawl.content = "" then
        { status := 400, error := some (couldNotAccessMsg req.businessUrl) }
      else
        let businessName := extractBusinessName req.businessUrl crawl.content
        match findExistingContext listRes businessName with
        | some existingContextId =>
          { status := 200, contextId := some existingContextId,
            businessName := some businessName, reused := true }
        | none =>
          match createRes with
          | .error (st, msg) => { status := st, error := some msg, createCalls := 1 }
          | .ok contextId =>
            { status := 200, contextId := some contextId,
              businessName := some businessName, createCalls := 1,
              createdContext :=
                some ⟨contextName businessName req.userName timestamp, contextId⟩ }

/-- The `SetupStep` union type of the Session Orchestrator
(LiveAvatarDemo.tsx line 6). -/
inductive SetupStep
  | form
  | generating
  | session
  | ended
  deriving Repr, DecidableEq

/-- The `{ contextId, businessName }` payload of a successful
generate-context response. -/
structure CtxData where
  contextId : String
  businessName : String
  deriving Repr, DecidableEq

/-- Outcome of one `fetch` to an internal API route as `startSession`
observes it: `ok` for a 2xx response with parsed payload; `fail body`
for a non-ok response whose parsed body's `error` field is `body`
(`none` when the field is absent). -/
inductive FetchOutcome (α : Type)
  | ok (val : α)
  | fail (body : Option String)
  deriving Repr, DecidableEq

/-- Model of `errorData.error || default`: JS falls back to the default message when
the `error` field is absent or the empty string (both falsy). -/
def errMsg (body : Option String) (default : String) : String :=
  match body with
  | some m => if m = "" then default else m
  | none => default

/-- The React state `startSession` reads and writes
(LiveAvatarDemo.tsx lines 30-48). -/
structure OrchState where
  step : SetupStep
  error : Option String
  sessionToken : String
  currentContextId : Option String
  currentBusinessName : String
  deriving Repr, DecidableEq

/-- Model of `startSession` (LiveAvatarDemo.tsx lines 93-156, identically
src/unnamed/part_002 lines 88-147): clear the error, enter `generating`,
call generate-context then start-session, and either enter `session` with
the returned token or fall back to `form` storing the failure message.
The two HTTP outcomes are passed as oracles; the second call is only
reached when the first succeeded, so its oracle is simply unused on the
failure path, exactly as in the source. -/
def startSession (ctxRes : FetchOutcome CtxData) (sessRes : FetchOutcome String)
    (s : OrchState) : OrchState :=
  -- setError(null); setSetupStep("generating");
  let s1 : OrchState := { s with error := none, step := .generating }
  match ctxRes with
  | .fail body =>
    { s1 with step := .form, error := some (errMsg body "Failed to generate context") }
  | .ok ctxData =>
    -- setCurrentContextId(contextId); setCurrentBusinessName(businessName);
    let s2 : OrchState :=
      { s1 with currentContextId := some ctxData.contextId,
                currentBusinessName := ctxData.businessName }
    match sessRes with
    | .fail body =>
      { s2 with step := .form, error := some (errMsg body "Failed to start session") }
    | .ok sessionToken =>
      { s2 with step := .session, sessionToken := sessionToken }

/-- The generate-context request body `startSession` submits
(LiveAvatarDemo.tsx lines 106-115): the business URL is normalized before
the request is issued. -/
def generateContextReq (userName businessUrl : String) : Req :=
  { userName := userName, businessUrl := normalizeUrl businessUrl }

/-! ## Helper lemmas -/

theorem jsSlice_length (s : String) (n : Nat) :
    (jsSlice s n).length = min s.length n := by
  show (s.data.take n).length = min s.data.length n
  rw [List.length_take, Nat.min_comm]

theorem jsSlice_min (s : String) (n : Nat) :
    jsSlice s n = jsSlice s (min s.length n) := by
  show String.mk (s.data.take n) = String.mk (s.data.take (min s.data.length n))
  rw [Nat.min_comm, ← List.take_take, List.take_length]

theorem append_ne_empty_left (s t : String) (h : s ≠ "") : s ++ t ≠ "" := by
  intro he
  apply h
  have hd := congrArg String.data he
  rw [String.data_append] at hd
  exact String.ext (List.append_eq_nil.mp hd).1

theorem isPrefixOf_append_self (l t : List Char) : l.isPrefixOf (l ++ t) = true := by
  induction l with
  | nil => cases t <;> rfl
  | cons a as ih => simp [List.isPrefixOf, ih]

theorem strStartsWith_append (s t : String) : strStartsWith (s ++ t) s = true := by
  unfold strStartsWith
  rw [String.data_append]
  exact isPrefixOf_append_self s.data t.data

theorem errMsg_ne_empty (body : Option String) (d : String) (hd : d ≠ "") :
    errMsg body d ≠ "" := by
  cases body with
  | none => simpa [errMsg] using hd
  | some m =>
    by_cases hm : m = "" <;> simp [errMsg, hm, hd]

theorem extractBusinessName_content_irrel (url c1 c2 : String) :
    extractBusinessName url c1 = extractBusinessName url c2 := rfl

/-! ## Claim theorems -/

/-- C1: for every user name, business name and crawled content string, the
content segment embedded by `generateSalesPrompt` is exactly the first
`min(len, ceiling)` characters of the content, so its length never exceeds
the variant's ceiling: 2000 characters in the basic variant and 6000 in the
multi-page variant. -/
theorem promptContentTruncated (userName businessName websiteContent title description :
    String) :
    generateSalesPrompt userName businessName websiteContent
      = salesPromptHeadV1 userName businessName ++ jsSlice websiteContent 2000 ++
          salesPromptTailV1
    ∧ (jsSlice websiteContent 2000).length = min websiteContent.length 2000
    ∧ (jsSlice websiteContent 2000).length ≤ 2000
    ∧ jsSlice websiteContent 2000 = jsSlice websiteContent (min websiteContent.length 2000)
    ∧ generateSalesPromptV2 userName businessName websiteContent title description
      = salesPromptHeadV2 userName businessName title description ++
          jsSlice websiteContent 6000 ++ salesPromptTailV2 businessName
    ∧ (jsSlice websiteContent 6000).length = min websiteContent.length 6000
    ∧ (jsSlice websiteContent 6000).length ≤ 6000
    ∧ jsSlice websiteContent 6000 = jsSlice websiteContent (min websiteContent.length 6000) :=
  ⟨rfl, jsSlice_length _ _, (jsSlice_length _ _).le.trans (Nat.min_le_right _ _),
    jsSlice_min _ _, rfl, jsSlice_length _ _,
    (jsSlice_length _ _).le.trans (Nat.min_le_right _ _), jsSlice_min _ _⟩

/-- C6: `extractBusinessName` is deterministic and independent of its content
argument: for any URL and any two content strings the results coincide. -/
theorem businessNameContentIndependent (url c1 c2 : String) :
    extractBusinessName url c1 = extractBusinessName url c2 :=
  extractBusinessName_content_irrel url c1 c2

/-- C7: `extractBusinessName` on `"https://www.Example-Co.com"` (any content)
parses the hostname, strips `www.` and the `.com` token, splits on `.`/`-`,
capitalizes each segment and joins with spaces, giving `"Example Co"`. -/
theorem businessNameExampleCo (content : String) :
    extractBusinessName "https://www.Example-Co.com" content = "Example Co" := rfl

/-- C8: `extractTextFromHtml` removes the script element with its content,
strips the remaining tags, decodes `&nbsp;`, collapses whitespace and trims,
mapping `"<script>bad()</script><p>Hello&nbsp;World</p>"` to `"Hello World"`. -/
theorem extractTextScriptEntityExample :
    extractTextFromHtml "<script>bad()</script><p>Hello&nbsp;World</p>" = "Hello World" := by
  decide

/-- C10: because `&amp;` is decoded before `&lt;`, the double-encoded
`"&amp;lt;"` decodes twice to `"<"`, while `"&amp;nbsp;"` yields the literal
text `"&nbsp;"` since the `&nbsp;` pass runs before the `&amp;` pass. -/
theorem doubleEncodedEntityExample :
    extractTextFromHtml "&amp;lt;" = "<" ∧ extractTextFromHtml "&amp;nbsp;" = "&nbsp;" := by
  constructor <;> decide

/-- C9: for every user-typed URL with no `http://`/`https://` scheme after
trimming, `normalizeUrl` returns the trimmed string prefixed with
`https://`; the request body `startSession` submits carries exactly this
normalized URL, and `normalizeUrl "example.com" = "https://example.com"`. -/
theorem normalizeUrlAddsScheme (userName url : String)
    (h : hasHttpScheme (jsTrim url) = false) :
    normalizeUrl url = "https://" ++ jsTrim url
    ∧ (generateContextReq userName url).businessUrl = "https://" ++ jsTrim url
    ∧ normalizeUrl "example.com" = "https://example.com" := by
  have h1 : normalizeUrl url = "https://" ++ jsTrim url := by
    unfold normalizeUrl
    simp [h]
  exact ⟨h1, h1, by decide⟩

/-- Witness for C9 at the concrete input `"example.com"`. -/
theorem normalizeUrlAddsScheme_witness :
    normalizeUrl "example.com" = "https://" ++ jsTrim "example.com" :=
  (normalizeUrlAddsScheme "Alice" "example.com" (by decide)).1

/-- C4: `startSession` ends in the `session` state exactly when the
generate-context call succeeded with its `{contextId, businessName}`
payload and the start-session call succeeded with its `{session_token}`
payload (which is then the stored token); on any failure in the chain the
machine ends in the `form` state with a non-empty stored error string. -/
theorem startSessionStateMachine (ctxRes : FetchOutcome CtxData)
    (sessRes : FetchOutcome String) (s : OrchState) :
    ((startSession ctxRes sessRes s).step = SetupStep.session ↔
      (∃ ctxData, ctxRes = .ok ctxData) ∧ (∃ tok, sessRes = .ok tok))
    ∧ (∀ ctxData tok, ctxRes = .ok ctxData → sessRes = .ok tok →
        (startSession ctxRes sessRes s).sessionToken = tok
        ∧ (startSession ctxRes sessRes s).currentContextId = some ctxData.contextId
        ∧ (startSession ctxRes sessRes s).currentBusinessName = ctxData.businessName)
    ∧ ((startSession ctxRes sessRes s).step ≠ SetupStep.session →
        (startSession ctxRes sessRes s).step = SetupStep.form
        ∧ ∃ m, (startSession ctxRes sessRes s).error = some m ∧ m ≠ "") := by
  cases ctxRes with
  | fail body =>
    refine ⟨by simp [startSession], by simp, fun _ => ⟨by simp [startSession], ?_⟩⟩
    exact ⟨errMsg body "Failed to generate context", by simp [startSession],
      errMsg_ne_empty body _ (by decide)⟩
  | ok ctxData =>
    cases sessRes with
    | fail body =>
      refine ⟨by simp [startSession], by simp, fun _ => ⟨by simp [startSession], ?_⟩⟩
      exact ⟨errMsg body "Failed to start session", by simp [startSession],
        errMsg_ne_empty body _ (by decide)⟩
    | ok tok =>
      refine ⟨by simp [startSession], ?_, fun hne => absurd (by simp [startSession]) hne⟩
      intro cd t hcd ht
      cases hcd
      cases ht
      exact ⟨rfl, rfl, rfl⟩

/-- Witness for C4: a failing generate-context call at a concrete state
lands in `form` with a non-empty error. -/
theorem startSessionStateMachine_witness :
    (startSession (FetchOutcome.fail (some ""))
        (FetchOutcome.ok "tok")
        ⟨SetupStep.form, none, "", none, ""⟩).step = SetupStep.form
    ∧ ∃ m, (startSession (FetchOutcome.fail (some ""))
        (FetchOutcome.ok "tok")
        ⟨SetupStep.form, none, "", none, ""⟩).error = some m ∧ m ≠ "" :=
  (startSessionStateMachine (FetchOutcome.fail (some "")) (FetchOutcome.ok "tok")
    ⟨SetupStep.form, none, "", none, ""⟩).2.2 (by decide)

/-- C2: when the homepage fetch fails, the crawl yields an empty content
string with the homepage as the only fetch attempt (no secondary-page fetch
is attempted), and the generate-context handler responds with status 400
and an error message that contains the submitted URL. -/
theorem homepageFailureYields400
    (fetch : String → Option String) (meta : String → String × String)
    (listRes : Option (List Context)) (createRes : Except (Nat × String) String)
    (timestamp userName url : String) (u : URLParts)
    (huser : userName ≠ "") (hurl : url ≠ "")
    (hparse : jsURL? url = some u) (hfail : fetch url = none) :
    fetchWebsiteContent fetch meta url
      = some ({ content := "", title := "", description := "" }, [(url, false)])
    ∧ (postV2 fetch meta listRes createRes timestamp ⟨userName, url⟩).status = 400
    ∧ (postV2 fetch meta listRes createRes timestamp ⟨userName, url⟩).error
        = some (("Could not access the website \"" ++ url) ++
            "\". Please double-check the URL and make sure the website is accessible.") := by
  have hcrawl : fetchWebsiteContent fetch meta url
      = some ({ content := "", title := "", description := "" }, [(url, false)]) := by
    unfold fetchWebsiteContent
    rw [hparse, hfail]
  have hpost : postV2 fetch meta listRes createRes timestamp ⟨userName, url⟩
      = { status := 400, error := some (couldNotAccessMsg url) } := by
    unfold postV2
    rw [if_neg (by simp [huser, hurl])]
    show (match fetchWebsiteContent fetch meta url with
      | none => _
      | some (crawl, _) => _) = _
    rw [hcrawl]
    simp
  exact ⟨hcrawl, by rw [hpost], by rw [hpost]; rfl⟩

/-- Witness for C2: a concrete request whose homepage fetch fails. -/
theorem homepageFailureYields400_witness :
    fetchWebsiteContent (fun _ => none) (fun _ => ("", ""))
        "https://example.com"
      = some ({ content := "", title := "", description := "" },
          [("https://example.com", false)])
    ∧ (postV2 (fun _ => none) (fun _ => ("", "")) none (Except.error (500, "x")) "0"
        ⟨"Alice", "https://example.com"⟩).status = 400
    ∧ (postV2 (fun _ => none) (fun _ => ("", "")) none (Except.error (500, "x")) "0"
        ⟨"Alice", "https://example.com"⟩).error
      = some (("Could not access the website \"" ++ "https://example.com") ++
          "\". Please double-check the URL and make sure the website is accessible.") :=
  homepageFailureYields400 (fun _ => none) (fun _ => ("", "")) none
    (Except.error (500, "x")) "0" "Alice" "https://example.com"
    ⟨"example.com", "https://example.com"⟩
    (by decide) (by decide) (by decide) rfl

/-- C5: for the multi-page crawl, the content string is empty only when
every fetch attempt failed: if any attempt in the crawl's fetch trace
succeeded, the content is non-empty. -/
theorem crawlContentEmptyOnlyIfAllFailed
    (fetch : String → Option String) (meta : String → String × String)
    (url : String) (crawl : CrawlResult) (trace : List (String × Bool))
    (h : fetchWebsiteContent fetch meta url = some (crawl, trace))
    (hone : ∃ a ∈ trace, a.2 = true) :
    crawl.content ≠ "" := by
  unfold fetchWebsiteContent at h
  cases hu : jsURL? url with
  | none => rw [hu] at h; exact absurd h (by simp)
  | some uparts =>
    rw [hu] at h
    cases hf : fetch url with
    | none =>
      rw [hf] at h
      simp only [Option.some.injEq, Prod.mk.injEq] at h
      obtain ⟨hc, ht⟩ := h
      rw [← ht] at hone
      obtain ⟨a, ha, hatrue⟩ := hone
      simp only [List.mem_singleton] at ha
      rw [ha] at hatrue
      simp at hatrue
    | some homepageHtml =>
      rw [hf] at h
      simp only [Option.some.injEq, Prod.mk.injEq] at h
      obtain ⟨hc, _⟩ := h
      rw [← hc]
      apply append_ne_empty_left
      apply append_ne_empty_left
      apply append_ne_empty_left
      decide

/-- Witness for C5: a concrete crawl with a successful homepage fetch has
non-empty content. -/
theorem crawlContentEmptyOnlyIfAllFailed_witness :
    ({ content := "Homepage:\nx\n\n", title := "", description := "" } :
        CrawlResult).content ≠ "" :=
  crawlContentEmptyOnlyIfAllFailed
    (fun u => if u = "https://example.com" then some "<p>x</p>" else none)
    (fun _ => ("", "")) "https://example.com"
    { content := "Homepage:\nx\n\n", title := "", description := "" }
    [("https://example.com", true), ("https://example.com/about", false),
      ("https://example.com/about-us", false), ("https://example.com/products", false)]
    (by decide) ⟨("https://example.com", true), by decide, rfl⟩

/-- C3: when a first successful request created the context
`"<businessName> Sales Rep - <userName> (<timestamp>)"` and that context is
listed in the first page of results seen by a second request for the same
business, the second request returns the same `contextId` with
`reused := true` and issues no create call (`createCalls = 0` and
`createdContext = none` in the resulting record). -/
theorem contextReuseSecondRequest
    (fetch1 fetch2 : String → Option String) (page : List Context)
    (createRes2 : Except (Nat × String) String)
    (userName1 userName2 url timestamp1 timestamp2 cid html1 html2 : String)
    (hu1 : userName1 ≠ "") (hu2 : userName2 ≠ "") (hurl : url ≠ "")
    (hf1 : fetch1 url = some html1) (hf2 : fetch2 url = some html2)
    (hmiss : findExistingContext (some page)
        (extractBusinessName url (extractTextFromHtml html1)) = none) :
    postV1 fetch1 (some page) (Except.ok cid) timestamp1 ⟨userName1, url⟩
      = { status := 200, contextId := some cid,
          businessName := some (extractBusinessName url (extractTextFromHtml html1)),
          createCalls := 1,
          createdContext := some ⟨contextName
            (extractBusinessName url (extractTextFromHtml html1)) userName1 timestamp1,
            cid⟩ }
    ∧ postV1 fetch2
        (some (page ++ [⟨contextName
          (extractBusinessName url (extractTextFromHtml html1)) userName1 timestamp1,
          cid⟩]))
        createRes2 timestamp2 ⟨userName2, url⟩
      = { status := 200, contextId := some cid,
          businessName := some (extractBusinessName url (extractTextFromHtml html2)),
          reused := true } := by
  have hmiss' : (match page.find? (fun ctx => strStartsWith ctx.name
        ((extractBusinessName url (extractTextFromHtml html1)) ++ " Sales Rep")) with
      | some matching => some matching.id
      | none => none) = none := hmiss
  have hfind : page.find? (fun ctx => strStartsWith ctx.name
      ((extractBusinessName url (extractTextFromHtml html1)) ++ " Sales Rep")) = none := by
    cases hfp : page.find? (fun ctx => strStartsWith ctx.name
        ((extractBusinessName url (extractTextFromHtml html1)) ++ " Sales Rep")) with
    | none => rfl
    | some m =>
      rw [hfp] at hmiss'
      simp at hmiss'
  have hname : contextName (extractBusinessName url (extractTextFromHtml html1))
        userName1 timestamp1
      = ((extractBusinessName url (extractTextFromHtml html1)) ++ " Sales Rep") ++
        (" - " ++ userName1 ++ " (" ++ timestamp1 ++ ")") := by
    apply String.ext
    simp only [contextName, String.data_append, List.append_assoc]
    rfl
  have hpred : strStartsWith
      (contextName (extractBusinessName url (extractTextFromHtml html1))
        userName1 timestamp1)
      ((extractBusinessName url (extractTextFromHtml html1)) ++ " Sales Rep") = true := by
    rw [hname]
    exact strStartsWith_append _ _
  have hfound : findExistingContext
      (some (page ++ [⟨contextName
        (extractBusinessName url (extractTextFromHtml html1)) userName1 timestamp1,
        cid⟩]))
      (extractBusinessName url (extractTextFromHtml html1)) = some cid := by
    show (match List.find? (fun ctx => strStartsWith ctx.name
        ((extractBusinessName url (extractTextFromHtml html1)) ++ " Sales Rep"))
        (page ++ [⟨contextName
          (extractBusinessName url (extractTextFromHtml html1)) userName1 timestamp1,
          cid⟩]) with
      | some matching => some matching.id
      | none => none) = some cid
    rw [List.find?_append, hfind]
    simp [List.find?, hpred]
  constructor
  · unfold postV1
    rw [if_neg (by simp [hu1, hurl])]
    show (match fetch1 url with
      | none => _
      | some html => _) = _
    rw [hf1]
    show (match findExistingContext (some page)
        (extractBusinessName url (extractTextFromHtml html1)) with
      | some existingContextId => _
      | none => _) = _
    rw [hmiss]
  · unfold postV1
    rw [if_neg (by simp [hu2, hurl])]
    show (match fetch2 url with
      | none => _
      | some html => _) = _
    rw [hf2]
    have hB2 : extractBusinessName url (extractTextFromHtml html2)
        = extractBusinessName url (extractTextFromHtml html1) :=
      extractBusinessName_content_irrel url _ _
    show (match findExistingContext
        (some (page ++ [⟨contextName
          (extractBusinessName url (extractTextFromHtml html1)) userName1 timestamp1,
          cid⟩]))
        (extractBusinessName url (extractTextFromHtml html2)) with
      | some existingContextId => _
      | none => _) = _
    rw [hB2, hfound]

/-- Witness for C3 at concrete inputs: two requests for
`https://example.com` with an initially empty remote page. -/
theorem contextReuseSecondRequest_witness :
    postV1 (fun _ => some "<p>Hi</p>") (some []) (Except.ok "ctx-1") "100"
        ⟨"Alice", "https://example.com"⟩
      = { status := 200, contextId := some "ctx-1",
          businessName := some (extractBusinessName "https://example.com"
            (extractTextFromHtml "<p>Hi</p>")),
          createCalls := 1,
          createdContext := some ⟨contextName
            (extractBusinessName "https://example.com" (extractTextFromHtml "<p>Hi</p>"))
            "Alice" "100", "ctx-1"⟩ }
    ∧ postV1 (fun _ => some "<p>Hi</p>")
        (some ([] ++ [⟨contextName
          (extractBusinessName "https://example.com" (extractTextFromHtml "<p>Hi</p>"))
          "Alice" "100", "ctx-1"⟩]))
        (Except.error (500, "x")) "200" ⟨"Bob", "https://example.com"⟩
      = { status := 200, contextId := some "ctx-1",
          businessName := some (extractBusinessName "https://example.com"
            (extractTextFromHtml "<p>Hi</p>")),
          reused := true } :=
  contextReuseSecondRequest (fun _ => some "<p>Hi</p>") (fun _ => some "<p>Hi</p>") []
    (Except.error (500, "x")) "Alice" "Bob" "https://example.com" "100" "200" "ctx-1"
    "<p>Hi</p>" "<p>Hi</p>" (by decide) (by decide) (by decide) rfl rfl (by decide)

end SDR
